import Mathlib

/-!
Shallow embedding of `src/tinyblue.py` (TinyBlue menu engine for a character
LCD): the `Item` / `Screen` data model, the scroll/selection state machine,
the navigation stack of the `TinyBlue` class, and the render projection.

Modelling conventions:
* Python `int` is `Int`; Python `%` on a positive modulus agrees with
  `Int.emod`.  Python strings are `List Char`; slicing `text[0:n]` with
  `n ≥ 0` is `List.take`.
* Python exceptions (`ZeroDivisionError` from `% 0`, `IndexError` from list
  indexing, the `TypeError` raised by `top_screen`) are made explicit:
  fallible operations return `Except String _` or `Option _`.
* Python objects are heap references: `Screen` objects are shared between the
  registry `screens` and the navigation stack `screen_stack`, and mutation of
  the top screen is visible through every alias.  The embedding therefore
  keeps a store (`store : List Screen`) and lets the registry and the stack
  hold indices into it.
* The LCD driver (`I2cLcd`) and the `on_click` callbacks are external
  collaborators.  `TinyBlue.render` returns the character lines handed to the
  driver, and the mutating operations additionally return the list of
  observable external events (renders performed, callbacks invoked) in order.
-/

/-- `Item` from `tinyblue.py`: one line of text, an optional `on_click`
callable (`some ()` models a callable, `none` models Python `None`), the
`update` flag, and the back-button flag.  Field order follows `__init__`. -/
structure Item where
  text : List Char
  on_click : Option Unit
  update : Bool
  is_back_button : Bool
deriving DecidableEq, Repr

/-- `Item.set_text`: replaces the text and sets `update = False`
(as the source does). -/
def Item.set_text (it : Item) (text : List Char) : Item :=
  { it with text := text, update := false }

/-- `Item.get_visible_text`: `text[0:num_chars]` padded on the right with
spaces to exactly `num_chars` characters.  The source's unused `animate`
parameter is dropped.  `num_chars` is a `Nat` because every call site passes
`num_columns - 1` with `num_columns ≥ 1`. -/
def Item.get_visible_text (it : Item) (num_chars : Nat) : List Char :=
  let text := it.text.take num_chars
  text ++ List.replicate (num_chars - text.length) ' '

/-- Python list indexing `xs[i]`: a non-negative index reads from the front,
a negative index `i ≥ -len(xs)` reads from the back, anything else raises
`IndexError` (modelled as `none`). -/
def pyIndex {α : Type} (xs : List α) (i : Int) : Option α :=
  if 0 ≤ i then xs.get? i.toNat
  else if 0 ≤ i + xs.length then xs.get? (i + xs.length).toNat
  else none

/-- `Screen` from `tinyblue.py`: the item list plus scroll state.
`top_line` is the spec's `window_top`, `line_index` the spec's
`selected_index`; both are Python ints. -/
structure Screen where
  items : List Item
  top_line : Int
  line_index : Int
deriving DecidableEq, Repr

/-- `Screen.__init__`: the source only checks that `items` is a list of
`Item` objects (guaranteed here by the type); any list — including the empty
one — is accepted, and the scroll state starts at `top_line = 0`,
`line_index = 0`. -/
def Screen.init (items : List Item) : Screen :=
  { items := items, top_line := 0, line_index := 0 }

/-- `Screen.scroll`: `line_index = (line_index + len(items) + direction) %
len(items)`, then `top_line` is pulled down (`line_index - num_lines + 1`)
or up (`line_index`) just enough to keep the selection visible.  On an empty
item list the Python `%` raises `ZeroDivisionError`. -/
def Screen.scroll (s : Screen) (direction num_lines : Int) : Except String Screen :=
  if s.items.length = 0 then
    .error "ZeroDivisionError: integer division or modulo by zero"
  else
    let line_index := (s.line_index + s.items.length + direction) % (s.items.length : Int)
    let top_line :=
      if line_index ≥ s.top_line + num_lines then line_index - num_lines + 1
      else if line_index < s.top_line then line_index
      else s.top_line
    .ok { s with line_index := line_index, top_line := top_line }

/-- One row of `Screen.render`: for row `i`, if `top_line + i < len(items)`
the row is a cursor character followed by `get_visible_text(num_columns - 1)`;
the cursor is `'='` for a callable `on_click`, else `'<'` for a back button,
else `'>'`, and `' '` on non-selected rows.  Rows past the end of the list
are `num_columns` spaces. -/
def Screen.renderRow (s : Screen) (i : Nat) (num_columns : Nat) : Except String (List Char) :=
  if s.top_line + (i : Int) < (s.items.length : Int) then
    match pyIndex s.items (s.top_line + (i : Int)) with
    | none => .error "IndexError: list index out of range"
    | some item =>
      let cursor : Char :=
        if s.top_line + (i : Int) = s.line_index then
          if item.on_click.isSome then '='
          else if item.is_back_button then '<'
          else '>'
        else ' '
      .ok (cursor :: item.get_visible_text (num_columns - 1))
  else
    .ok (List.replicate num_columns ' ')

/-- The loop of `Screen.render`: rows `i, i+1, …` for `n` iterations. -/
def Screen.renderFrom (s : Screen) (num_columns : Nat) : Nat → Nat → Except String (List (List Char))
  | _, 0 => .ok []
  | i, n + 1 => do
    let row ← s.renderRow i num_columns
    let rest ← s.renderFrom num_columns (i + 1) n
    .ok (row :: rest)

/-- `Screen.render`: the list of `num_lines` row strings. -/
def Screen.render (s : Screen) (num_lines num_columns : Nat) : Except String (List (List Char)) :=
  s.renderFrom num_columns 0 num_lines

/-- `Screen.get_selected_item`: `self.items[self.line_index]`, `none` when
the Python indexing would raise `IndexError`. -/
def Screen.get_selected_item (s : Screen) : Option Item :=
  pyIndex s.items s.line_index

/-- `Screen.reset`: both scroll fields back to `0`. -/
def Screen.reset (s : Screen) : Screen :=
  { s with top_line := 0, line_index := 0 }

/-- Observable effects on the external collaborators: a render handing the
given lines to the LCD driver, or the invocation of an item's `on_click`
callback (an external zero-argument callable). -/
inductive Event where
  | rendered : List (List Char) → Event
  | invoked : Event
deriving DecidableEq, Repr

/-- `TinyBlue` from `tinyblue.py`.  `store` is the heap of `Screen` objects;
`screens` (the registry) and `screen_stack` hold references (indices) into
it, so that mutating the top screen is visible through every alias, exactly
as for Python object references.  The LCD handle is external and not part of
the state. -/
structure TinyBlue where
  num_lines : Nat
  num_columns : Nat
  store : List Screen
  screens : List (String × Nat)
  screen_stack : List Nat
  screen_root_path : String
  auto_render : Bool
deriving DecidableEq, Repr

/-- `TinyBlue.__init__`: empty registry and stack, root path `"/"`,
`auto_render = True`.  The constructor's LCD calls (`clear`, `custom_char`)
only touch the external display. -/
def TinyBlue.init (num_lines num_columns : Nat) : TinyBlue :=
  { num_lines := num_lines
    num_columns := num_columns
    store := []
    screens := []
    screen_stack := []
    screen_root_path := "/"
    auto_render := true }

/-- Update of the registry dict `self.screens[path] = id`: replace the
binding if the key is present, append it otherwise. -/
def assocSet : List (String × Nat) → String → Nat → List (String × Nat)
  | [], path, id => [(path, id)]
  | (k, v) :: rest, path, id =>
    if k = path then (path, id) :: rest else (k, v) :: assocSet rest path id

/-- `TinyBlue.add_screen`: allocates the screen in the store, records it in
the registry, and if the path is the root path replaces the stack with that
single screen. -/
def TinyBlue.add_screen (t : TinyBlue) (path : String) (screen : Screen) : TinyBlue :=
  let id := t.store.length
  { t with
    store := t.store ++ [screen]
    screens := assocSet t.screens path id
    screen_stack := if path = t.screen_root_path then [id] else t.screen_stack }

/-- `TinyBlue.top_screen`: raises `TypeError` when the stack is empty,
otherwise returns the reference at `screen_stack[len - 1]` together with the
`Screen` it points at. -/
def TinyBlue.top_screen (t : TinyBlue) : Except String (Nat × Screen) :=
  match t.screen_stack.getLast? with
  | none => .error "TypeError: No screen to show. Call add_screen first"
  | some id =>
    match t.store.get? id with
    | some s => .ok (id, s)
    | none => .error "invalid screen reference"

/-- `TinyBlue.render`: renders the top screen; the produced lines are what
the LCD driver would be handed (the cursor characters `'>'`, `'='`, `'<'`
are translated to custom glyphs by the external driver). -/
def TinyBlue.render (t : TinyBlue) : Except String (List (List Char)) := do
  let (_, s) ← t.top_screen
  s.render t.num_lines t.num_columns

/-- The tail `if self.auto_render: self.render()` shared by `scroll`, `back`
and `open_screen`: the state `t` is already the mutated one, and the render
(when performed) is recorded as an event. -/
def TinyBlue.renderIfAuto (t : TinyBlue) : Except String (TinyBlue × List Event) :=
  if t.auto_render then do
    let lines ← t.render
    .ok (t, [Event.rendered lines])
  else
    .ok (t, [])

/-- `TinyBlue.scroll`: scrolls the top screen by `direction`, then renders
when `auto_render` is on. -/
def TinyBlue.scroll (t : TinyBlue) (direction : Int) : Except String (TinyBlue × List Event) := do
  let (id, s) ← t.top_screen
  let s' ← s.scroll direction (t.num_lines : Int)
  TinyBlue.renderIfAuto { t with store := t.store.set id s' }

/-- `TinyBlue.back`: when the stack has more than one element, resets the top
screen, pops it, and renders when `auto_render` is on; otherwise it does
nothing (no exception, no state change). -/
def TinyBlue.back (t : TinyBlue) : Except String (TinyBlue × List Event) :=
  if 1 < t.screen_stack.length then do
    let (id, s) ← t.top_screen
    TinyBlue.renderIfAuto { t with
      store := t.store.set id s.reset
      screen_stack := t.screen_stack.dropLast }
  else
    .ok (t, [])

/-- `TinyBlue.select`: reads the selected item of the top screen; a back
button dispatches to `back`, else a callable `on_click` is invoked (an
external callback, recorded as `Event.invoked`) followed by a render when
`auto_render` is on; any other item is a no-op. -/
def TinyBlue.select (t : TinyBlue) : Except String (TinyBlue × List Event) := do
  let (_, s) ← t.top_screen
  match s.get_selected_item with
  | none => .error "IndexError: list index out of range"
  | some item =>
    if item.is_back_button then
      t.back
    else if item.on_click.isSome then
      if t.auto_render then do
        let lines ← t.render
        .ok (t, [Event.invoked, Event.rendered lines])
      else
        .ok (t, [Event.invoked])
    else
      .ok (t, [])

/-- `TinyBlue.open_screen`: pushes the registered screen and renders when
`auto_render` is on; an unknown path is silently ignored. -/
def TinyBlue.open_screen (t : TinyBlue) (path : String) : Except String (TinyBlue × List Event) :=
  match t.screens.lookup path with
  | some id => TinyBlue.renderIfAuto { t with screen_stack := t.screen_stack ++ [id] }
  | none => .ok (t, [])

/-- Well-formedness of a `TinyBlue` heap: every stack reference points into
the store, and every stored screen has a non-negative `top_line` (the data
model's `window_top ∈ [0, len(items))` invariant, restricted to what the
render projection needs). -/
def TinyBlue.WF (t : TinyBlue) : Prop :=
  (∀ id ∈ t.screen_stack, id < t.store.length) ∧ (∀ s ∈ t.store, 0 ≤ s.top_line)

instance (t : TinyBlue) : Decidable t.WF := by
  unfold TinyBlue.WF
  exact instDecidableAnd

/-- The item `select` would act on: `top_screen().get_selected_item()`,
`none` when either step raises. -/
def TinyBlue.selected_item (t : TinyBlue) : Option Item :=
  match t.top_screen with
  | .ok (_, s) => s.get_selected_item
  | .error _ => none

/-- Fixture: a back-button item. -/
def demoBackItem : Item :=
  { text := ['B'], on_click := none, update := false, is_back_button := true }

/-- Fixture: an actionable item. -/
def demoActionItem : Item :=
  { text := ['A'], on_click := some (), update := false, is_back_button := false }

/-- Fixture: a plain informational item. -/
def demoPlainItem : Item :=
  { text := ['P'], on_click := none, update := false, is_back_button := false }

/-- Fixture: an item that is simultaneously back-marked and actionable. -/
def demoBothItem : Item :=
  { text := ['x'], on_click := some (), update := false, is_back_button := true }

/-- Fixture: a screen whose selected item is back-marked and actionable. -/
def demoBothScreen : Screen := Screen.init [demoBothItem]

/-- Fixture: a navigator at stack depth 1 whose selected root item is a back
button, with auto-render on. -/
def demoNavRoot : TinyBlue :=
  { num_lines := 2
    num_columns := 4
    store := [Screen.init [demoBackItem, demoPlainItem]]
    screens := [("/", 0)]
    screen_stack := [0]
    screen_root_path := "/"
    auto_render := true }

/-- Fixture: a navigator at stack depth 2 whose top screen's selected item is
a back button, with auto-render on. -/
def demoNavDepth2 : TinyBlue :=
  { num_lines := 2
    num_columns := 4
    store := [Screen.init [demoActionItem, demoPlainItem], Screen.init [demoBackItem]]
    screens := [("/", 0), ("/sub", 1)]
    screen_stack := [0, 1]
    screen_root_path := "/"
    auto_render := true }

/-! ## Basic facts about `Screen.scroll` -/

/-- A successful `scroll` never changes the item list. -/
theorem Screen.scroll_items {s s' : Screen} {d rows : Int}
    (h : s.scroll d rows = .ok s') : s'.items = s.items := by
  unfold Screen.scroll at h
  split at h
  · simp at h
  · simp only [Except.ok.injEq] at h
    subst h
    rfl

/-- On a non-empty item list, `scroll` never raises. -/
theorem Screen.scroll_isOk (s : Screen) (d rows : Int)
    (hne : s.items.length ≠ 0) : ∃ s', s.scroll d rows = .ok s' := by
  unfold Screen.scroll
  rw [if_neg hne]
  exact ⟨_, rfl⟩

/-- The new `line_index` after a successful `scroll` is the Python modulo
expression. -/
theorem Screen.scroll_line_index {s s' : Screen} {d rows : Int}
    (h : s.scroll d rows = .ok s') :
    s'.line_index = (s.line_index + s.items.length + d) % (s.items.length : Int) := by
  unfold Screen.scroll at h
  split at h
  · simp at h
  · simp only [Except.ok.injEq] at h
    subst h
    rfl

/-- After any single successful `scroll` with `num_lines ≥ 1`, the window
invariant `top_line ≤ line_index < top_line + num_lines` holds — whatever the
previous state was, since each branch of the `top_line` adjustment
re-establishes it. -/
theorem Screen.scroll_establishes_invariant {s s' : Screen} {d rows : Int}
    (hne : s.items.length ≠ 0) (hr : 1 ≤ rows)
    (h : s.scroll d rows = .ok s') :
    s'.top_line ≤ s'.line_index ∧ s'.line_index < s'.top_line + rows := by
  have hN : (0 : Int) < s.items.length := by
    exact_mod_cast Nat.pos_of_ne_zero hne
  have h0 : 0 ≤ (s.line_index + s.items.length + d) % (s.items.length : Int) :=
    Int.emod_nonneg _ (by exact_mod_cast hne)
  have h1 : (s.line_index + s.items.length + d) % (s.items.length : Int) < s.items.length :=
    Int.emod_lt_of_pos _ hN
  unfold Screen.scroll at h
  rw [if_neg hne] at h
  simp only [Except.ok.injEq] at h
  subst h
  dsimp only
  split
  · constructor <;> omega
  · split
    · constructor <;> omega
    · constructor <;> omega

/-- A sequence of `scroll(direction, num_lines)` calls, stopping at the first
raised exception (Python would propagate it). -/
def scrollSeq (s : Screen) (rows : Int) : List Int → Except String Screen
  | [] => .ok s
  | d :: ds =>
    match s.scroll d rows with
    | .ok s' => scrollSeq s' rows ds
    | .error e => .error e

/-- On a non-empty item list with `num_lines ≥ 1`, a scroll sequence never
raises, preserves the item list, and preserves the window invariant. -/
theorem scrollSeq_invariant (rows : Int) (hr : 1 ≤ rows) :
    ∀ (ds : List Int) (s : Screen), s.items ≠ [] →
      s.top_line ≤ s.line_index → s.line_index < s.top_line + rows →
      ∃ s', scrollSeq s rows ds = .ok s' ∧ s'.items = s.items ∧
        s'.top_line ≤ s'.line_index ∧ s'.line_index < s'.top_line + rows := by
  intro ds
  induction ds with
  | nil =>
    intro s hne hinv1 hinv2
    exact ⟨s, rfl, rfl, hinv1, hinv2⟩
  | cons d ds ih =>
    intro s hne hinv1 hinv2
    have hlen : s.items.length ≠ 0 := by simpa using hne
    obtain ⟨s1, hs1⟩ := s.scroll_isOk d rows hlen
    have hitems := Screen.scroll_items hs1
    obtain ⟨hin1, hin2⟩ := Screen.scroll_establishes_invariant hlen hr hs1
    obtain ⟨s', hseq, hit, h1, h2⟩ := ih s1 (by rw [hitems]; exact hne) hin1 hin2
    refine ⟨s', ?_, by rw [hit, hitems], h1, h2⟩
    unfold scrollSeq
    rw [hs1]
    exact hseq

/-- Iterating `scroll(+1, num_lines)` `k` times advances `line_index` by `k`
modulo the item count. -/
theorem scrollSeq_replicate_one (rows : Int) :
    ∀ (k : Nat) (s : Screen), 0 < s.items.length →
      0 ≤ s.line_index → s.line_index < (s.items.length : Int) →
      ∃ s', scrollSeq s rows (List.replicate k 1) = .ok s' ∧ s'.items = s.items ∧
        s'.line_index = (s.line_index + k) % (s.items.length : Int) := by
  intro k
  induction k with
  | zero =>
    intro s hN h0 h1
    refine ⟨s, rfl, rfl, ?_⟩
    simpa using (Int.emod_eq_of_lt h0 h1).symm
  | succ k ih =>
    intro s hN h0 h1
    have hlen : s.items.length ≠ 0 := Nat.pos_iff_ne_zero.mp hN
    have hNz : ((s.items.length : Int)) ≠ 0 := by exact_mod_cast hlen
    have hNpos : (0 : Int) < s.items.length := by exact_mod_cast hN
    obtain ⟨s1, hs1⟩ := s.scroll_isOk 1 rows hlen
    have hitems := Screen.scroll_items hs1
    have hli : s1.line_index = (s.line_index + 1) % (s.items.length : Int) := by
      rw [Screen.scroll_line_index hs1,
        show s.line_index + (s.items.length : Int) + 1
            = s.line_index + 1 + (s.items.length : Int) * 1 by ring,
        Int.add_mul_emod_self_left]
    obtain ⟨s', hseq, hit, hfin⟩ := ih s1
      (by rw [hitems]; exact hN)
      (by rw [hli]; exact Int.emod_nonneg _ hNz)
      (by rw [hli, hitems]; exact Int.emod_lt_of_pos _ hNpos)
    refine ⟨s', ?_, by rw [hit, hitems], ?_⟩
    · rw [List.replicate_succ]
      unfold scrollSeq
      rw [hs1]
      exact hseq
    · rw [hfin, hli, hitems, Int.emod_add_emod]
      congr 1
      push_cast
      ring

/-- C1.  For every `Screen` with a non-empty item list and every
`viewport_rows ≥ 1`, after any sequence of `scroll(direction, viewport_rows)`
calls with `direction ∈ {+1, -1}` starting from the constructor state
(`line_index = 0`, `top_line = 0`), no call raises and the window invariant
`top_line ≤ line_index < top_line + viewport_rows` holds. -/
theorem scroll_sequence_window_invariant (items : List Item) (rows : Int) (ds : List Int)
    (hne : items ≠ []) (hrows : 1 ≤ rows) (hdir : ∀ d ∈ ds, d = 1 ∨ d = -1) :
    ∃ s', scrollSeq (Screen.init items) rows ds = .ok s' ∧
      s'.top_line ≤ s'.line_index ∧ s'.line_index < s'.top_line + rows := by
  obtain ⟨s', hseq, _, h1, h2⟩ :=
    scrollSeq_invariant rows hrows ds (Screen.init items) hne
      (by simp [Screen.init]) (by simp [Screen.init]; omega)
  exact ⟨s', hseq, h1, h2⟩

/-- Witness for C1 at a concrete input: three items, two viewport rows, the
scroll sequence down, down, down, up. -/
theorem scroll_sequence_window_invariant_witness :
    (([⟨['a'], none, false, false⟩, ⟨['b'], none, false, false⟩,
       ⟨['c'], none, false, false⟩] : List Item) ≠ []) ∧
    ((1 : Int) ≤ 2) ∧ (∀ d ∈ ([1, 1, 1, -1] : List Int), d = 1 ∨ d = -1) ∧
    ∃ s', scrollSeq (Screen.init [⟨['a'], none, false, false⟩,
        ⟨['b'], none, false, false⟩, ⟨['c'], none, false, false⟩]) 2 [1, 1, 1, -1] = .ok s' ∧
      s'.top_line ≤ s'.line_index ∧ s'.line_index < s'.top_line + 2 :=
  ⟨by decide, by decide, by decide,
    scroll_sequence_window_invariant _ 2 _ (by decide) (by decide) (by decide)⟩

/-- C7.  Selection wraps at both ends: on a screen whose `line_index` is a
valid item index, scrolling down `N = len(items)` times returns `line_index`
to its original value, and one `scroll(-1)` from `line_index = 0` yields
`line_index = N - 1`. -/
theorem scroll_wraps (s : Screen) (rows : Int) (hN : 1 ≤ s.items.length)
    (h0 : 0 ≤ s.line_index) (h1 : s.line_index < (s.items.length : Int)) :
    (∃ s', scrollSeq s rows (List.replicate s.items.length 1) = .ok s' ∧
      s'.line_index = s.line_index) ∧
    (s.line_index = 0 →
      ∃ s', s.scroll (-1) rows = .ok s' ∧
        s'.line_index = (s.items.length : Int) - 1) := by
  have hlen : s.items.length ≠ 0 := by omega
  have hNpos : (0 : Int) < s.items.length := by exact_mod_cast Nat.pos_of_ne_zero hlen
  constructor
  · obtain ⟨s', hseq, _, hfin⟩ := scrollSeq_replicate_one rows s.items.length s
      (by omega) h0 h1
    refine ⟨s', hseq, ?_⟩
    rw [hfin,
      show s.line_index + (s.items.length : Int)
          = s.line_index + (s.items.length : Int) * 1 by ring,
      Int.add_mul_emod_self_left]
    exact Int.emod_eq_of_lt h0 h1
  · intro hz
    obtain ⟨s', hs'⟩ := s.scroll_isOk (-1) rows hlen
    refine ⟨s', hs', ?_⟩
    rw [Screen.scroll_line_index hs', hz]
    have : (0 : Int) + s.items.length + (-1) = (s.items.length : Int) - 1 := by ring
    rw [this]
    exact Int.emod_eq_of_lt (by omega) (by omega)

/-- Witness for C7 at a concrete input: a three-item screen selected at
index 1. -/
theorem scroll_wraps_witness :
    (1 ≤ (Screen.mk [⟨['a'], none, false, false⟩, ⟨['b'], none, false, false⟩,
        ⟨['c'], none, false, false⟩] 0 1).items.length) ∧
    ((0 : Int) ≤ 1) ∧ ((1 : Int) < 3) ∧
    ((∃ s', scrollSeq (Screen.mk [⟨['a'], none, false, false⟩, ⟨['b'], none, false, false⟩,
        ⟨['c'], none, false, false⟩] 0 1) 2 (List.replicate 3 1) = .ok s' ∧
        s'.line_index = 1) ∧
      ((1 : Int) = 0 → ∃ s', (Screen.mk [⟨['a'], none, false, false⟩,
          ⟨['b'], none, false, false⟩, ⟨['c'], none, false, false⟩] 0 1).scroll (-1) 2 = .ok s' ∧
        s'.line_index = 3 - 1)) :=
  ⟨by decide, by decide, by decide,
    scroll_wraps _ 2 (by decide) (by decide) (by decide)⟩

/-! ## The render projection -/

/-- `get_visible_text` always produces exactly `num_chars` characters:
truncation if the stored text is longer, right-padding with spaces if
shorter. -/
theorem Item.get_visible_text_length (it : Item) (n : Nat) :
    (it.get_visible_text n).length = n := by
  unfold Item.get_visible_text
  simp only [List.length_append, List.length_take, List.length_replicate]
  omega

/-- With a non-negative `top_line`, a single render row never raises: an
in-range row is a cursor character followed by the padded text, an
out-of-range row is all spaces. -/
theorem Screen.renderRow_ok (s : Screen) (i cols : Nat) (ht : 0 ≤ s.top_line) :
    ∃ row, s.renderRow i cols = .ok row ∧
      ((s.top_line + (i : Int) < (s.items.length : Int)) →
        ∃ item c, pyIndex s.items (s.top_line + (i : Int)) = some item ∧
          row = c :: item.get_visible_text (cols - 1)) ∧
      (¬(s.top_line + (i : Int) < (s.items.length : Int)) →
        row = List.replicate cols ' ') := by
  by_cases hin : s.top_line + (i : Int) < (s.items.length : Int)
  · have hge : 0 ≤ s.top_line + (i : Int) := by positivity
    have hlt : (s.top_line + (i : Int)).toNat < s.items.length := by omega
    obtain ⟨item, hget⟩ : ∃ a, s.items.get? (s.top_line + (i : Int)).toNat = some a :=
      ⟨s.items.get ⟨_, hlt⟩, List.get?_eq_get hlt⟩
    have hpy : pyIndex s.items (s.top_line + (i : Int)) = some item := by
      unfold pyIndex
      rw [if_pos hge]
      exact hget
    unfold Screen.renderRow
    rw [if_pos hin, hpy]
    exact ⟨_, rfl, fun _ => ⟨item, _, rfl, rfl⟩, fun h => absurd hin h⟩
  · unfold Screen.renderRow
    rw [if_neg hin]
    exact ⟨_, rfl, fun h => absurd h hin, fun _ => rfl⟩

/-- The render loop with a non-negative `top_line` never raises, produces one
row per iteration, and each row has the per-row shape of `renderRow_ok`. -/
theorem Screen.renderFrom_shape (s : Screen) (cols : Nat) (ht : 0 ≤ s.top_line) :
    ∀ (n i : Nat), ∃ l, s.renderFrom cols i n = .ok l ∧ l.length = n ∧
      ∀ j, j < n → ∃ row, l.get? j = some row ∧
        ((s.top_line + ((i + j : Nat) : Int) < (s.items.length : Int)) →
          ∃ item c, pyIndex s.items (s.top_line + ((i + j : Nat) : Int)) = some item ∧
            row = c :: item.get_visible_text (cols - 1)) ∧
        (¬(s.top_line + ((i + j : Nat) : Int) < (s.items.length : Int)) →
          row = List.replicate cols ' ') := by
  intro n
  induction n with
  | zero =>
    intro i
    exact ⟨[], rfl, rfl, fun j hj => absurd hj (Nat.not_lt_zero j)⟩
  | succ n ih =>
    intro i
    obtain ⟨row, hrow, hshape1, hshape2⟩ := s.renderRow_ok i cols ht
    obtain ⟨rest, hrest, hlen, hall⟩ := ih (i + 1)
    refine ⟨row :: rest, ?_, by simpa using hlen, ?_⟩
    · unfold Screen.renderFrom
      rw [hrow, hrest]
      rfl
    · intro j hj
      cases j with
      | zero =>
        refine ⟨row, rfl, ?_, ?_⟩
        · simpa using hshape1
        · simpa using hshape2
      | succ j =>
        obtain ⟨r, hr, hr1, hr2⟩ := hall j (by omega)
        refine ⟨r, by simpa using hr, ?_, ?_⟩
        · have : (i + 1 + j : Nat) = (i + (j + 1) : Nat) := by omega
          rw [this] at hr1
          exact hr1
        · have : (i + 1 + j : Nat) = (i + (j + 1) : Nat) := by omega
          rw [this] at hr2
          exact hr2

/-- C8.  For every `Screen` with `top_line ≥ 0` (the data model's window
invariant) and all `viewport_rows ≥ 1`, `viewport_columns ≥ 1`: `render`
returns exactly `viewport_rows` rows; an in-range row is a cursor character
followed by a text portion of exactly `viewport_columns - 1` characters
(`get_visible_text`, i.e. the stored text truncated or right-padded with
spaces); a row whose index `top_line + i` is past the item count is entirely
blank (`viewport_columns` spaces). -/
theorem render_produces_viewport (s : Screen) (rows cols : Nat)
    (hr : 1 ≤ rows) (hc : 1 ≤ cols) (ht : 0 ≤ s.top_line) :
    ∃ l, s.render rows cols = .ok l ∧ l.length = rows ∧
      ∀ j, j < rows → ∃ row, l.get? j = some row ∧
        ((s.top_line + (j : Int) < (s.items.length : Int)) →
          ∃ item c, pyIndex s.items (s.top_line + (j : Int)) = some item ∧
            row = c :: item.get_visible_text (cols - 1) ∧
            (item.get_visible_text (cols - 1)).length = cols - 1) ∧
        (¬(s.top_line + (j : Int) < (s.items.length : Int)) →
          row = List.replicate cols ' ') := by
  obtain ⟨l, hl, hlen, hall⟩ := s.renderFrom_shape cols ht rows 0
  refine ⟨l, hl, hlen, ?_⟩
  intro j hj
  obtain ⟨row, hr', h1, h2⟩ := hall j hj
  refine ⟨row, hr', ?_, ?_⟩
  · intro hin
    obtain ⟨item, c, hpy, hrow⟩ := h1 (by simpa using hin)
    exact ⟨item, c, by simpa using hpy, hrow, item.get_visible_text_length (cols - 1)⟩
  · intro hout
    exact h2 (by simpa using hout)

/-- Witness for C8 at a concrete input: one item, two rows, four columns —
the second row is out of range and blank. -/
theorem render_produces_viewport_witness :
    (1 ≤ 2) ∧ (1 ≤ 4) ∧
    ((0 : Int) ≤ (Screen.mk [⟨['h', 'i'], none, false, false⟩] 0 0).top_line) ∧
    ∃ l, (Screen.mk [⟨['h', 'i'], none, false, false⟩] 0 0).render 2 4 = .ok l ∧
      l.length = 2 ∧
      ∀ j, j < 2 → ∃ row, l.get? j = some row ∧
        (((Screen.mk [⟨['h', 'i'], none, false, false⟩] 0 0).top_line + (j : Int) <
            ((Screen.mk [⟨['h', 'i'], none, false, false⟩] 0 0).items.length : Int)) →
          ∃ item c, pyIndex (Screen.mk [⟨['h', 'i'], none, false, false⟩] 0 0).items
              ((Screen.mk [⟨['h', 'i'], none, false, false⟩] 0 0).top_line + (j : Int)) =
                some item ∧
            row = c :: item.get_visible_text (4 - 1) ∧
            (item.get_visible_text (4 - 1)).length = 4 - 1) ∧
        (¬((Screen.mk [⟨['h', 'i'], none, false, false⟩] 0 0).top_line + (j : Int) <
            ((Screen.mk [⟨['h', 'i'], none, false, false⟩] 0 0).items.length : Int)) →
          row = List.replicate 4 ' ') :=
  ⟨by decide, by decide, by decide,
    render_produces_viewport _ 2 4 (by decide) (by decide) (by decide)⟩

/-! ## The navigation stack -/

/-- `bind` on `Except` applied to a success, as a rewrite rule. -/
theorem ok_bind {ε α β : Type} (a : α) (f : α → Except ε β) :
    (bind (Except.ok a) f : Except ε β) = f a := rfl

/-- The value reported by `getLast?` is a member of the list. -/
theorem mem_of_getLast? {α : Type} {l : List α} {a : α}
    (h : l.getLast? = some a) : a ∈ l := by
  cases l with
  | nil => simp at h
  | cons x xs =>
    rw [List.getLast?_eq_getLast (x :: xs) (by simp)] at h
    injection h with h
    subst h
    exact List.getLast_mem _

/-- `top_screen` succeeds exactly on the last stack reference and the screen
it points at. -/
theorem TinyBlue.top_screen_eq_ok {t : TinyBlue} {id : Nat} {s : Screen}
    (hlast : t.screen_stack.getLast? = some id)
    (hget : t.store.get? id = some s) :
    t.top_screen = .ok (id, s) := by
  unfold TinyBlue.top_screen
  simp only [hlast, hget]

/-- Inversion of a successful `top_screen`. -/
theorem TinyBlue.top_screen_ok_inv {t : TinyBlue} {p : Nat × Screen}
    (h : t.top_screen = .ok p) :
    t.screen_stack.getLast? = some p.1 ∧ t.store.get? p.1 = some p.2 := by
  unfold TinyBlue.top_screen at h
  cases hl : t.screen_stack.getLast? with
  | none =>
    simp only [hl] at h
    exact absurd h (by simp)
  | some id =>
    simp only [hl] at h
    cases hg : t.store.get? id with
    | none =>
      simp only [hg] at h
      exact absurd h (by simp)
    | some s =>
      simp only [hg, Except.ok.injEq] at h
      subst h
      exact ⟨rfl, hg⟩

/-- On a non-empty stack with valid references, `top_screen` succeeds. -/
theorem TinyBlue.top_screen_exists (t : TinyBlue) (hne : t.screen_stack ≠ [])
    (hwf : ∀ id ∈ t.screen_stack, id < t.store.length) :
    ∃ id s, t.screen_stack.getLast? = some id ∧ t.store.get? id = some s ∧
      t.top_screen = .ok (id, s) := by
  obtain ⟨id, hlast⟩ : ∃ a, t.screen_stack.getLast? = some a :=
    ⟨t.screen_stack.getLast hne, List.getLast?_eq_getLast _ hne⟩
  have hid : id < t.store.length := hwf id (mem_of_getLast? hlast)
  obtain ⟨s, hget⟩ : ∃ a, t.store.get? id = some a :=
    ⟨t.store.get ⟨id, hid⟩, List.get?_eq_get hid⟩
  exact ⟨id, s, hlast, hget, TinyBlue.top_screen_eq_ok hlast hget⟩

/-- On a well-formed state with a non-empty stack, `TinyBlue.render`
succeeds. -/
theorem TinyBlue.render_ok (t : TinyBlue) (hne : t.screen_stack ≠ [])
    (hwf1 : ∀ id ∈ t.screen_stack, id < t.store.length)
    (hwf2 : ∀ s ∈ t.store, 0 ≤ s.top_line) :
    ∃ lines, t.render = .ok lines := by
  obtain ⟨id, s, hlast, hget, htop⟩ := t.top_screen_exists hne hwf1
  have hs : 0 ≤ s.top_line := hwf2 s (List.get?_mem hget)
  obtain ⟨l, hl, _, _⟩ := s.renderFrom_shape t.num_columns hs t.num_lines 0
  refine ⟨l, ?_⟩
  unfold TinyBlue.render
  rw [htop, ok_bind]
  exact hl

/-- On a well-formed state with a non-empty stack, `renderIfAuto` succeeds,
returns the state unchanged, and records a render exactly when `auto_render`
is on. -/
theorem TinyBlue.renderIfAuto_ok (t : TinyBlue) (hne : t.screen_stack ≠ [])
    (hwf1 : ∀ id ∈ t.screen_stack, id < t.store.length)
    (hwf2 : ∀ s ∈ t.store, 0 ≤ s.top_line) :
    ∃ evs, t.renderIfAuto = .ok (t, evs) ∧
      (t.auto_render = true → ∃ lines, t.render = .ok lines ∧ evs = [Event.rendered lines]) ∧
      (t.auto_render = false → evs = []) := by
  cases har : t.auto_render with
  | true =>
    obtain ⟨lines, hlines⟩ := t.render_ok hne hwf1 hwf2
    refine ⟨[Event.rendered lines], ?_, fun _ => ⟨lines, hlines, rfl⟩,
      fun hf => absurd hf (by simp)⟩
    unfold TinyBlue.renderIfAuto
    rw [if_pos har, hlines, ok_bind]
  | false =>
    refine ⟨[], ?_, fun ht => absurd ht (by simp), fun _ => rfl⟩
    unfold TinyBlue.renderIfAuto
    rw [if_neg (by simp [har])]

/-- `back` on a stack with at most one element is a silent no-op. -/
theorem TinyBlue.back_noop {t : TinyBlue} (h : ¬ 1 < t.screen_stack.length) :
    t.back = .ok (t, []) := by
  unfold TinyBlue.back
  rw [if_neg h]

/-- `back` on a well-formed state with stack depth above one: the top screen
is reset in the store, the stack is popped, and a render happens exactly when
`auto_render` is on. -/
theorem TinyBlue.back_pop (t : TinyBlue) (hlen : 1 < t.screen_stack.length)
    (hwf1 : ∀ id ∈ t.screen_stack, id < t.store.length)
    (hwf2 : ∀ s ∈ t.store, 0 ≤ s.top_line) :
    ∃ id s evs, t.screen_stack.getLast? = some id ∧ t.store.get? id = some s ∧
      t.back = .ok ({ t with
        store := t.store.set id s.reset,
        screen_stack := t.screen_stack.dropLast }, evs) ∧
      (t.auto_render = true → ∃ lines, evs = [Event.rendered lines]) ∧
      (t.auto_render = false → evs = []) := by
  have hne : t.screen_stack ≠ [] := by
    intro h
    rw [h] at hlen
    simp at hlen
  obtain ⟨id, s, hlast, hget, htop⟩ := t.top_screen_exists hne hwf1
  have hwf1' : ∀ id' ∈ t.screen_stack.dropLast, id' < (t.store.set id s.reset).length := by
    intro id' hid'
    rw [List.length_set]
    exact hwf1 id' (List.dropLast_subset _ hid')
  have hwf2' : ∀ s' ∈ t.store.set id s.reset, 0 ≤ s'.top_line := by
    intro s' hs'
    rcases List.mem_or_eq_of_mem_set hs' with h | h
    · exact hwf2 s' h
    · rw [h]
      exact le_refl 0
  have hne' : t.screen_stack.dropLast ≠ [] := by
    have hdl := List.length_dropLast t.screen_stack
    intro h
    rw [h] at hdl
    simp at hdl
    omega
  obtain ⟨evs, hevs, hev1, hev2⟩ := TinyBlue.renderIfAuto_ok
    { t with store := t.store.set id s.reset, screen_stack := t.screen_stack.dropLast }
    hne' hwf1' hwf2'
  refine ⟨id, s, evs, hlast, hget, ?_, ?_, ?_⟩
  · unfold TinyBlue.back
    rw [if_pos hlen, htop, ok_bind]
    exact hevs
  · intro har
    obtain ⟨lines, _, hev⟩ := hev1 har
    exact ⟨lines, hev⟩
  · exact hev2

/-! ## Claim theorems about the navigation stack -/

/-- C6.  For every well-formed navigator: with stack depth above 1, `back()`
resets the top screen's `line_index` and `top_line` to 0 (in the shared
store, via `Screen.reset`) and then pops it, so the stack depth decreases by
exactly 1; with stack depth 1, `back()` leaves the whole state unchanged. -/
theorem back_resets_and_pops (t : TinyBlue) (hwf : t.WF) :
    (1 < t.screen_stack.length →
      ∃ id s evs, t.screen_stack.getLast? = some id ∧ t.store.get? id = some s ∧
        t.back = .ok ({ t with
          store := t.store.set id s.reset
          screen_stack := t.screen_stack.dropLast }, evs) ∧
        t.screen_stack.dropLast.length = t.screen_stack.length - 1) ∧
    (t.screen_stack.length = 1 → t.back = .ok (t, [])) := by
  obtain ⟨hwf1, hwf2⟩ := hwf
  constructor
  · intro hlen
    obtain ⟨id, s, evs, h1, h2, h3, _, _⟩ := t.back_pop hlen hwf1 hwf2
    exact ⟨id, s, evs, h1, h2, h3, List.length_dropLast _⟩
  · intro h1
    exact TinyBlue.back_noop (by omega)

/-- Witness for C6 at a concrete input: a depth-2 navigator. -/
theorem back_resets_and_pops_witness :
    demoNavDepth2.WF ∧
    ((1 < demoNavDepth2.screen_stack.length →
      ∃ id s evs, demoNavDepth2.screen_stack.getLast? = some id ∧
        demoNavDepth2.store.get? id = some s ∧
        demoNavDepth2.back = .ok ({ demoNavDepth2 with
          store := demoNavDepth2.store.set id s.reset
          screen_stack := demoNavDepth2.screen_stack.dropLast }, evs) ∧
        demoNavDepth2.screen_stack.dropLast.length = demoNavDepth2.screen_stack.length - 1) ∧
    (demoNavDepth2.screen_stack.length = 1 → demoNavDepth2.back = .ok (demoNavDepth2, []))) :=
  ⟨by decide, back_resets_and_pops demoNavDepth2 (by decide)⟩

/-- C5 counterexample: on a navigator with an empty stack, `back()` does not
raise — it returns normally with the state unchanged, so not every navigation
primitive fails with an error. -/
theorem back_empty_stack_counterexample :
    (TinyBlue.init 2 16).screen_stack = [] ∧
    (TinyBlue.init 2 16).back = .ok (TinyBlue.init 2 16, []) :=
  ⟨rfl, rfl⟩

/-- C5 (amended).  On a navigator with an empty stack (no root registered),
`scroll()`, `select()` and `render()` each fail with a raised error, while
`back()` is a silent no-op. -/
theorem empty_stack_primitives (t : TinyBlue) (d : Int) (h : t.screen_stack = []) :
    (∃ e, t.scroll d = .error e) ∧ (∃ e, t.select = .error e) ∧
    (∃ e, t.render = .error e) ∧ t.back = .ok (t, []) := by
  have htop : t.top_screen = .error "TypeError: No screen to show. Call add_screen first" := by
    unfold TinyBlue.top_screen
    rw [h]
    rfl
  refine ⟨⟨"TypeError: No screen to show. Call add_screen first", ?_⟩,
    ⟨"TypeError: No screen to show. Call add_screen first", ?_⟩,
    ⟨"TypeError: No screen to show. Call add_screen first", ?_⟩, ?_⟩
  · unfold TinyBlue.scroll
    rw [htop]
    rfl
  · unfold TinyBlue.select
    rw [htop]
    rfl
  · unfold TinyBlue.render
    rw [htop]
    rfl
  · exact TinyBlue.back_noop (by rw [h]; simp)

/-- Witness for C5 (amended) at a concrete input: a freshly constructed
navigator, before any screen is registered. -/
theorem empty_stack_primitives_witness :
    (TinyBlue.init 4 20).screen_stack = [] ∧
    ((∃ e, (TinyBlue.init 4 20).scroll 1 = .error e) ∧
     (∃ e, (TinyBlue.init 4 20).select = .error e) ∧
     (∃ e, (TinyBlue.init 4 20).render = .error e) ∧
     (TinyBlue.init 4 20).back = .ok (TinyBlue.init 4 20, [])) :=
  ⟨rfl, empty_stack_primitives (TinyBlue.init 4 20) 1 rfl⟩

/-- C9.  `open_screen` on a path absent from the registry is a silent no-op:
no exception, and the returned state is the input state (same stack depth,
same elements, same top screen), with no render performed. -/
theorem open_unknown_path_noop (t : TinyBlue) (path : String)
    (h : t.screens.lookup path = none) :
    t.open_screen path = .ok (t, []) := by
  unfold TinyBlue.open_screen
  rw [h]

/-- Witness for C9 at a concrete input: an unregistered path. -/
theorem open_unknown_path_noop_witness :
    demoNavRoot.screens.lookup "/missing" = none ∧
    demoNavRoot.open_screen "/missing" = .ok (demoNavRoot, []) :=
  ⟨by decide, open_unknown_path_noop demoNavRoot "/missing" (by decide)⟩

/-- C10.  The `Screen` constructor accepts the empty list (only list-ness and
element type are checked), and on a screen with an empty item list every
`scroll` call raises the division-by-zero error from `% len(items)` and
`get_selected_item` fails with an out-of-range index access. -/
theorem empty_screen_failures (s : Screen) (d rows : Int) (h : s.items = []) :
    Screen.init [] = { items := [], top_line := 0, line_index := 0 } ∧
    s.scroll d rows = .error "ZeroDivisionError: integer division or modulo by zero" ∧
    s.get_selected_item = none := by
  refine ⟨rfl, ?_, ?_⟩
  · unfold Screen.scroll
    rw [if_pos (by rw [h]; rfl)]
  · unfold Screen.get_selected_item pyIndex
    rw [h]
    split
    · rfl
    · split
      · rfl
      · rfl

/-- Witness for C10 at a concrete input: the screen built from the empty
list. -/
theorem empty_screen_failures_witness :
    (Screen.init ([] : List Item)).items = [] ∧
    (Screen.init [] = { items := [], top_line := 0, line_index := 0 } ∧
     (Screen.init ([] : List Item)).scroll 1 2 =
       .error "ZeroDivisionError: integer division or modulo by zero" ∧
     (Screen.init ([] : List Item)).get_selected_item = none) :=
  ⟨rfl, empty_screen_failures (Screen.init []) 1 2 rfl⟩

/-- C2 (code bug in the source): the `Screen` constructor does not reject an
empty item list — `Screen([])` succeeds, producing a screen whose every
`scroll` then raises `ZeroDivisionError`.  The spec's `InvalidScreen`
requirement ("rejected at construction") is not implemented. -/
theorem screen_constructor_accepts_empty :
    (Screen.init []).items = [] ∧
    (Screen.init []).scroll 1 2 =
      .error "ZeroDivisionError: integer division or modulo by zero" :=
  ⟨rfl, rfl⟩

/-- C4 counterexample: for a selected item that is both back-marked and
actionable, the render projection produces the actionable glyph `'='`, not
the back glyph `'<'` — the source tests `callable(item.on_click)` before
`item.is_back_button`. -/
theorem glyph_back_and_actionable_counterexample :
    demoBothItem.is_back_button = true ∧ demoBothItem.on_click.isSome = true ∧
    demoBothScreen.render 1 4 = .ok [['=', 'x', ' ', ' ']] ∧ ('=' : Char) ≠ '<' :=
  ⟨rfl, rfl, rfl, by decide⟩

/-- C4 (amended).  For every rendered row whose item is both back-marked and
actionable and is the selected item, the cursor glyph is the actionable glyph
`'='`: actionable takes priority over back in the glyph choice. -/
theorem glyph_actionable_over_back (s : Screen) (i cols : Nat) (item : Item)
    (hin : s.top_line + (i : Int) < (s.items.length : Int))
    (hpy : pyIndex s.items (s.top_line + (i : Int)) = some item)
    (hsel : s.top_line + (i : Int) = s.line_index)
    (hback : item.is_back_button = true)
    (hact : item.on_click.isSome = true) :
    s.renderRow i cols = .ok ('=' :: item.get_visible_text (cols - 1)) := by
  unfold Screen.renderRow
  rw [if_pos hin]
  simp only [hpy]
  rw [if_pos hsel, if_pos hact]

/-- Witness for C4 (amended) at a concrete input: the back-and-actionable
item selected on row 0. -/
theorem glyph_actionable_over_back_witness :
    ((demoBothScreen.top_line + ((0 : Nat) : Int) < (demoBothScreen.items.length : Int)) ∧
     pyIndex demoBothScreen.items (demoBothScreen.top_line + ((0 : Nat) : Int)) =
       some demoBothItem ∧
     demoBothScreen.top_line + ((0 : Nat) : Int) = demoBothScreen.line_index ∧
     demoBothItem.is_back_button = true ∧ demoBothItem.on_click.isSome = true) ∧
    demoBothScreen.renderRow 0 4 = .ok ('=' :: demoBothItem.get_visible_text (4 - 1)) :=
  ⟨⟨by decide, by decide, by decide, rfl, rfl⟩,
    glyph_actionable_over_back demoBothScreen 0 4 demoBothItem
      (by decide) (by decide) (by decide) rfl rfl⟩

/-- C3 counterexample: `select()` on a back item at stack depth 1 with
auto-render enabled performs no render at all — `back()` is a silent no-op
and its render call is never reached, so the claimed "render after the back
branch, including at depth 1" fails. -/
theorem select_back_at_depth_one_counterexample :
    demoNavRoot.auto_render = true ∧
    demoNavRoot.selected_item = some demoBackItem ∧
    demoNavRoot.screen_stack.length = 1 ∧
    demoNavRoot.select = .ok (demoNavRoot, []) :=
  ⟨rfl, rfl, rfl, rfl⟩

/-- C3 (amended).  With auto-render enabled: `select()` on a back item
renders exactly when the stack depth is above 1 (the render happens inside
the `back()` pop); on a back item at depth 1 it is a silent no-op with no
render; on a non-back actionable item it invokes the callback and then
renders. -/
theorem select_render_behavior (t : TinyBlue) (item : Item) (hwf : t.WF)
    (ha : t.auto_render = true) (hsel : t.selected_item = some item) :
    (item.is_back_button = true → 1 < t.screen_stack.length →
      ∃ t' lines, t.select = .ok (t', [Event.rendered lines])) ∧
    (item.is_back_button = true → t.screen_stack.length = 1 →
      t.select = .ok (t, [])) ∧
    (item.is_back_button = false → item.on_click.isSome = true →
      ∃ lines, t.select = .ok (t, [Event.invoked, Event.rendered lines])) := by
  obtain ⟨hwf1, hwf2⟩ := hwf
  cases htop : t.top_screen with
  | error e =>
    unfold TinyBlue.selected_item at hsel
    simp only [htop] at hsel
    exact absurd hsel (by simp)
  | ok p =>
    obtain ⟨id, s⟩ := p
    unfold TinyBlue.selected_item at hsel
    simp only [htop] at hsel
    refine ⟨?_, ?_, ?_⟩
    · intro hback hlen
      obtain ⟨id2, s2, evs, _, _, h3, h4, _⟩ := t.back_pop hlen hwf1 hwf2
      obtain ⟨lines, hev⟩ := h4 ha
      refine ⟨{ t with
        store := t.store.set id2 s2.reset
        screen_stack := t.screen_stack.dropLast }, lines, ?_⟩
      unfold TinyBlue.select
      rw [htop, ok_bind]
      simp only [hsel]
      rw [if_pos hback]
      rw [hev] at h3
      exact h3
    · intro hback hlen
      unfold TinyBlue.select
      rw [htop, ok_bind]
      simp only [hsel]
      rw [if_pos hback]
      exact TinyBlue.back_noop (by omega)
    · intro hback hact
      have hne : t.screen_stack ≠ [] := by
        have hlast := (TinyBlue.top_screen_ok_inv htop).1
        intro hemp
        rw [hemp] at hlast
        simp at hlast
      obtain ⟨lines, hlines⟩ := t.render_ok hne hwf1 hwf2
      refine ⟨lines, ?_⟩
      unfold TinyBlue.select
      rw [htop, ok_bind]
      simp only [hsel]
      rw [if_neg (by simp [hback]), if_pos hact, if_pos ha, hlines, ok_bind]

/-- Witness for C3 (amended) at a concrete input: a depth-2 navigator whose
top screen's selected item is a back button. -/
theorem select_render_behavior_witness :
    demoNavDepth2.WF ∧ demoNavDepth2.auto_render = true ∧
    demoNavDepth2.selected_item = some demoBackItem ∧
    ((demoBackItem.is_back_button = true → 1 < demoNavDepth2.screen_stack.length →
      ∃ t' lines, demoNavDepth2.select = .ok (t', [Event.rendered lines])) ∧
     (demoBackItem.is_back_button = true → demoNavDepth2.screen_stack.length = 1 →
      demoNavDepth2.select = .ok (demoNavDepth2, [])) ∧
     (demoBackItem.is_back_button = false → demoBackItem.on_click.isSome = true →
      ∃ lines, demoNavDepth2.select = .ok (demoNavDepth2,
        [Event.invoked, Event.rendered lines]))) :=
  ⟨by decide, rfl, rfl,
    select_render_behavior demoNavDepth2 demoBackItem (by decide) rfl rfl⟩
